import Mathlib

/-
Verification of the secure secret store and resilient remote-call subsystem
of the newsletterdigest repository (Go).

The embedding follows the Go sources:
  * package credentials (Store, encrypt, decrypt, StoreCredentials,
    StoreToken, LoadToken, GetOAuthClient) — embedded in the repo docs;
  * package openai (Client.Chat retry loop);
  * package config (RetryMax, BackoffMin, BackoffMax).

External library primitives (PBKDF2, AES-GCM, encoding/json,
golang.org/x/oauth2 Token.Valid) are not part of the repository; they are
modelled either as explicit parameters (a CryptoPrim record of the key
derivation and AEAD functions, parse oracles for JSON) or, for
oauth2.Token.Valid, as a definition transcribed from the library source.
Byte strings are List Nat, durations are Nat nanoseconds, instants are
Int seconds.
-/

set_option autoImplicit false

namespace NewsletterDigest

/-- Cryptographic primitives used by the credentials store, modelled as an
explicit parameter record. In the Go source these are golang.org/x/crypto
pbkdf2.Key (100000 iterations of SHA-256, 32-byte key) and crypto/cipher
AES-GCM (gcm.Seal / gcm.Open, gcm.NonceSize() = 12). They are external
library code, so theorems take their contracts as hypotheses. -/
structure CryptoPrim where
  nonceSize : Nat
  kdf : String → List Nat → List Nat
  aeadSeal : List Nat → List Nat → List Nat → List Nat
  aeadOpen : List Nat → List Nat → List Nat → Option (List Nat)

/-- Store handles encrypted credential storage (struct Store in the Go
source: baseDir and passphrase fields). -/
structure Store where
  baseDir : String
  passphrase : String
deriving DecidableEq

/-- deriveKey creates an encryption key from the passphrase:
pbkdf2.Key([]byte(s.passphrase), salt, 100000, 32, sha256.New). -/
def Store.deriveKey (prim : CryptoPrim) (s : Store) (salt : List Nat) : List Nat :=
  prim.kdf s.passphrase salt

/-- encrypt encrypts data using AES-GCM. The Go source draws a fresh
16-byte random salt and a fresh random nonce of gcm.NonceSize() bytes;
here both random draws are inputs. gcm.Seal(nonce, nonce, data, nil)
returns nonce ++ sealed, and the salt is prepended:
result = salt ++ nonce ++ sealed. The only Go error paths are failures of
the random source, which the explicit salt/nonce inputs replace. -/
def Store.encrypt (prim : CryptoPrim) (s : Store) (salt nonce data : List Nat) : List Nat :=
  salt ++ (nonce ++ prim.aeadSeal (s.deriveKey prim salt) nonce data)

/-- Error outcomes of Store.decrypt, one per return site in the Go source. -/
inductive DecryptError where
  /-- len(data) < 16: "invalid encrypted data". -/
  | invalidData
  /-- len(ciphertext) < nonceSize: "ciphertext too short". -/
  | tooShort
  /-- gcm.Open failed: "decrypt: %w" (authentication failure). -/
  | openFailed
deriving DecidableEq

/-- decrypt decrypts data using AES-GCM, following the Go source line by
line: reject inputs shorter than 16 bytes, split off the 16-byte salt,
re-derive the key, reject when the rest is shorter than the nonce, split
off the nonce, then authenticate-and-decrypt with gcm.Open. -/
def Store.decrypt (prim : CryptoPrim) (s : Store) (data : List Nat) :
    Except DecryptError (List Nat) :=
  if data.length < 16 then .error .invalidData
  else
    let salt := data.take 16
    let ciphertext := data.drop 16
    let key := s.deriveKey prim salt
    if ciphertext.length < prim.nonceSize then .error .tooShort
    else
      let nonce := ciphertext.take prim.nonceSize
      let ct := ciphertext.drop prim.nonceSize
      match prim.aeadOpen key nonce ct with
      | some plaintext => .ok plaintext
      | none => .error .openFailed

/-! Concrete toy instantiation of the primitive record, used only to
witness that the hypotheses of the theorems below are satisfiable. It is
not a model of AES-GCM; it only validates the contract shape (appends a
key/nonce-dependent tag that aeadOpen checks). -/

/-- Toy authentication tag: a key-, nonce- and data-dependent checksum. -/
def toyTag (key nonce data : List Nat) : Nat :=
  (key.sum * 2 + nonce.sum * 3 + data.sum * 5 + data.length) % 251

/-- Toy seal: ciphertext is the plaintext followed by the tag byte. -/
def toySeal (key nonce data : List Nat) : List Nat :=
  data ++ [toyTag key nonce data]

/-- Toy open: recompute the tag over all but the last byte and compare. -/
def toyOpen (key nonce ct : List Nat) : Option (List Nat) :=
  if ct = ct.dropLast ++ [toyTag key nonce ct.dropLast] then some ct.dropLast else none

/-- Toy key derivation: character codes of the passphrase followed by the
salt (fully key- and salt-dependent, deterministic). -/
def toyKdf (p : String) (salt : List Nat) : List Nat :=
  (p.toList.map Char.toNat) ++ salt

/-- Toy primitive record packaging the functions above. -/
def toyPrim : CryptoPrim :=
  { nonceSize := 12, kdf := toyKdf, aeadSeal := toySeal, aeadOpen := toyOpen }

/-- The toy AEAD satisfies the round-trip contract of gcm.Open/gcm.Seal. -/
theorem toyOpen_toySeal (key nonce data : List Nat) :
    toyOpen key nonce (toySeal key nonce data) = some data := by
  simp [toyOpen, toySeal]

/-- Helper: decrypting a well-shaped envelope salt ++ (nonce ++ ct) splits
into the salt, nonce and ciphertext components and reduces to gcm.Open
under the key derived by the decrypting store. -/
theorem decrypt_split (prim : CryptoPrim) (s : Store)
    (salt nonce ct : List Nat)
    (hsalt : salt.length = 16)
    (hnonce : nonce.length = prim.nonceSize) :
    Store.decrypt prim s (salt ++ (nonce ++ ct)) =
      match prim.aeadOpen (s.deriveKey prim salt) nonce ct with
      | some plaintext => .ok plaintext
      | none => .error .openFailed := by
  unfold Store.decrypt
  have hlen : ¬ (salt ++ (nonce ++ ct)).length < 16 := by
    simp [List.length_append, hsalt]
  rw [if_neg hlen]
  have htake : (salt ++ (nonce ++ ct)).take 16 = salt := by
    rw [← hsalt, List.take_left]
  have hdrop : (salt ++ (nonce ++ ct)).drop 16 = nonce ++ ct := by
    rw [← hsalt, List.drop_left]
  simp only [htake, hdrop]
  have hlen2 : ¬ (nonce ++ ct).length < prim.nonceSize := by
    simp [List.length_append, hnonce]
  rw [if_neg hlen2]
  have htake2 : (nonce ++ ct).take prim.nonceSize = nonce := by
    rw [← hnonce, List.take_left]
  have hdrop2 : (nonce ++ ct).drop prim.nonceSize = ct := by
    rw [← hnonce, List.drop_left]
  simp only [htake2, hdrop2]

/-- C1: decrypting the output of encrypting a plaintext p under the same
store passphrase returns p, for a store with any non-empty passphrase,
with the random salt (16 bytes) and nonce (gcm.NonceSize() bytes) drawn
during encryption treated as arbitrary inputs, for every primitive record
satisfying the AEAD round-trip contract (true of AES-GCM). -/
theorem decrypt_encrypt_roundtrip (prim : CryptoPrim) (s : Store)
    (salt nonce p : List Nat)
    (hpass : s.passphrase ≠ "")
    (hsalt : salt.length = 16)
    (hnonce : nonce.length = prim.nonceSize)
    (hrt : ∀ key n d, prim.aeadOpen key n (prim.aeadSeal key n d) = some d) :
    Store.decrypt prim s (Store.encrypt prim s salt nonce p) = .ok p := by
  rw [Store.encrypt, decrypt_split prim s salt nonce _ hsalt hnonce, hrt]

/-- Witness for C1 at a concrete store, salt, nonce and plaintext, with
the toy primitive discharging the AEAD round-trip hypothesis. -/
theorem decrypt_encrypt_roundtrip_witness :
    Store.decrypt toyPrim ⟨"base", "pw"⟩
      (Store.encrypt toyPrim ⟨"base", "pw"⟩ (List.replicate 16 0) (List.replicate 12 0) [1, 2, 3]) =
      .ok [1, 2, 3] :=
  decrypt_encrypt_roundtrip toyPrim ⟨"base", "pw"⟩ (List.replicate 16 0) (List.replicate 12 0)
    [1, 2, 3] (by decide) (by decide) (by decide) toyOpen_toySeal

/-- C2: decrypting an envelope produced under passphrase k1 with a store
built with a different passphrase k2 fails with the authentication error
(the gcm.Open failure path) and never returns a plaintext, for every
primitive record whose AEAD rejects this envelope under the k2-derived key
(the defining property of authenticated encryption for distinct keys). -/
theorem decrypt_wrong_passphrase (prim : CryptoPrim) (s1 s2 : Store)
    (salt nonce p : List Nat)
    (hpass1 : s1.passphrase ≠ "")
    (hpass2 : s2.passphrase ≠ "")
    (hne : s1.passphrase ≠ s2.passphrase)
    (hsalt : salt.length = 16)
    (hnonce : nonce.length = prim.nonceSize)
    (hreject : prim.aeadOpen (s2.deriveKey prim salt) nonce
        (prim.aeadSeal (s1.deriveKey prim salt) nonce p) = none) :
    Store.decrypt prim s2 (Store.encrypt prim s1 salt nonce p) = .error .openFailed := by
  rw [Store.encrypt, decrypt_split prim s2 salt nonce _ hsalt hnonce, hreject]

/-- Witness for C2 at two concrete stores with distinct passphrases; the
toy primitive rejects the envelope under the wrong-passphrase key at this
input, discharging the authentication hypothesis by evaluation. -/
theorem decrypt_wrong_passphrase_witness :
    Store.decrypt toyPrim ⟨"base", "pw2"⟩
      (Store.encrypt toyPrim ⟨"base", "pw"⟩ (List.replicate 16 0) (List.replicate 12 0) [1, 2, 3]) =
      .error .openFailed :=
  decrypt_wrong_passphrase toyPrim ⟨"base", "pw"⟩ ⟨"base", "pw2"⟩
    (List.replicate 16 0) (List.replicate 12 0) [1, 2, 3]
    (by decide) (by decide) (by decide) (by decide) (by decide) (by decide)

/-! Retry loop of openai Client.Chat, with the config package constants.
Durations are Nat nanoseconds (Go time.Duration). The Go sleep expression
computes in float64; for these constants every intermediate value
(1.5e9 * 2^k for k ≤ 4, capped at 6e9) is exactly representable, so the
Nat translation is exact. The HTTP transport, the JSON body parser and
the jitter source rand.Intn(700) are external inputs, modelled as
explicit function parameters. -/

/-- RetryMax from package config. -/
def RetryMax : Nat := 5

/-- BackoffMin from package config: 1500 * time.Millisecond, in ns. -/
def BackoffMin : Nat := 1500000000

/-- BackoffMax from package config: 6 * time.Second, in ns. -/
def BackoffMax : Nat := 6000000000

/-- Sleep computed at the end of a loop iteration:
time.Duration(math.Min(float64(BackoffMax), float64(BackoffMin)*math.Pow(2, float64(attempt-1))))
plus time.Duration(rand.Intn(700))*time.Millisecond, where jitterMs is the
value drawn by rand.Intn(700). -/
def backoffSleep (attempt jitterMs : Nat) : Nat :=
  min BackoffMax (BackoffMin * 2 ^ (attempt - 1)) + jitterMs * 1000000

/-- Errors Chat can return, one per return site in the Go source. -/
inductive ChatError where
  /-- http.DefaultClient.Do returned err != nil. -/
  | transport (msg : String)
  /-- fmt.Errorf("claude status %d: %s", ...) for a non-200 status. -/
  | statusErr (status : Nat) (body : String)
  /-- json.Unmarshal of a 200 body failed. -/
  | unmarshalErr
  /-- 200 body parsed but len(cr.Content) == 0: "no content in response". -/
  | noContent
  /-- ANTHROPIC_API_KEY empty: "missing ANTHROPIC_API_KEY". -/
  | missingKey
deriving DecidableEq

/-- Outcome of one http.DefaultClient.Do call. -/
inductive HttpResult where
  | transportErr (msg : String)
  | response (status : Nat) (body : String)
deriving DecidableEq

/-- How one loop iteration of Chat ends. -/
inductive StepKind where
  | success (text : String)
  | fatal (e : ChatError)
  | retryable (e : ChatError)
deriving DecidableEq

/-- Classification performed by the body of the Chat loop: transport
errors set lastErr and continue; status 200 parses the body (unmarshal
failure and empty content return immediately, otherwise Content[0].Text
is returned); 429 and 500..599 set lastErr and continue; any other status
returns immediately. parse models json.Unmarshal into chatResp, yielding
the list of content texts or none on a malformed body. -/
def classify (parse : String → Option (List String)) : HttpResult → StepKind
  | .transportErr m => .retryable (.transport m)
  | .response st body =>
    if st = 200 then
      match parse body with
      | none => .fatal .unmarshalErr
      | some [] => .fatal .noContent
      | some (t :: _) => .success t
    else if st = 429 ∨ (500 ≤ st ∧ st ≤ 599) then .retryable (.statusErr st body)
    else .fatal (.statusErr st body)

/-- Error carried by a step, if any. -/
def StepKind.errOf : StepKind → Option ChatError
  | .success _ => none
  | .fatal e => some e
  | .retryable e => some e

/-- Whether a step falls through to the backoff sleep and the next
iteration. -/
def StepKind.isRetryable : StepKind → Bool
  | .retryable _ => true
  | _ => false

/-- Observable outcome of one Chat call: the returned value or error, the
number of attempts performed (calls to http.DefaultClient.Do), and the
list of time.Sleep durations in order. The error side is an Option
because the Go loop returns the lastErr variable, initially nil. -/
structure ChatTrace where
  result : Except (Option ChatError) String
  attempts : Nat
  sleeps : List Nat

/-- The for-loop of Chat over the remaining attempt numbers. Each
iteration performs one request, classifies it, and either returns
immediately (success or fatal) or records the backoff sleep — which in
the Go source runs at the end of every retryable iteration, including the
last one — and continues with lastErr updated. doReq gives the outcome of
the n-th request; jitter gives the rand.Intn(700) draw of the n-th
iteration. -/
def chatLoop (parse : String → Option (List String)) (doReq : Nat → HttpResult)
    (jitter : Nat → Nat) : List Nat → Option ChatError → ChatTrace
  | [], lastErr => ⟨.error lastErr, 0, []⟩
  | attempt :: rest, lastErr =>
    match classify parse (doReq attempt) with
    | .success t => ⟨.ok t, 1, []⟩
    | .fatal e => ⟨.error (some e), 1, []⟩
    | .retryable e =>
      let r := chatLoop parse doReq jitter rest (some e)
      ⟨r.result, r.attempts + 1, backoffSleep attempt (jitter attempt) :: r.sleeps⟩

/-- Chat: after the ANTHROPIC_API_KEY check, run the loop for attempt = 1
up to RetryMax, with lastErr initially nil. -/
def Chat (parse : String → Option (List String)) (doReq : Nat → HttpResult)
    (jitter : Nat → Nat) (apiKey : String) : ChatTrace :=
  if apiKey = "" then ⟨.error (some .missingKey), 0, []⟩
  else chatLoop parse doReq jitter ((List.range RetryMax).map (fun i => i + 1)) none

/-- A step that falls through to the next iteration is a retryable one. -/
theorem retryable_exists (k : StepKind) (h : k.isRetryable = true) :
    ∃ e, k = .retryable e := by
  cases k with
  | success t => simp [StepKind.isRetryable] at h
  | fatal e => simp [StepKind.isRetryable] at h
  | retryable e => exact ⟨e, rfl⟩

/-- Helper: when every attempt is classified retryable, the loop over
attempts 1..5 performs all five requests, sleeps after each of them, and
exits carrying the failure of attempt 5. -/
theorem chatLoop_all_retryable (parse : String → Option (List String))
    (doReq : Nat → HttpResult) (jitter : Nat → Nat)
    (h : ∀ n, (classify parse (doReq n)).isRetryable = true) :
    chatLoop parse doReq jitter ((List.range RetryMax).map (fun i => i + 1)) none =
      ⟨.error (classify parse (doReq 5)).errOf, 5,
        [backoffSleep 1 (jitter 1), backoffSleep 2 (jitter 2), backoffSleep 3 (jitter 3),
          backoffSleep 4 (jitter 4), backoffSleep 5 (jitter 5)]⟩ := by
  obtain ⟨e1, h1⟩ := retryable_exists _ (h 1)
  obtain ⟨e2, h2⟩ := retryable_exists _ (h 2)
  obtain ⟨e3, h3⟩ := retryable_exists _ (h 3)
  obtain ⟨e4, h4⟩ := retryable_exists _ (h 4)
  obtain ⟨e5, h5⟩ := retryable_exists _ (h 5)
  have hrange : (List.range RetryMax).map (fun i => i + 1) = [1, 2, 3, 4, 5] := rfl
  rw [hrange]
  simp [chatLoop, h1, h2, h3, h4, h5, StepKind.errOf]

/-- C4: with the configured maximum of 5 attempts (config.RetryMax), if
every request ends in a retryable failure (transport error, 429 or 5xx),
Chat performs exactly 5 attempts and returns the failure observed on the
last attempt as its error — never a success. -/
theorem chat_exhausts_retries (parse : String → Option (List String))
    (doReq : Nat → HttpResult) (jitter : Nat → Nat) (apiKey : String)
    (hkey : apiKey ≠ "")
    (hretry : ∀ n, (classify parse (doReq n)).isRetryable = true) :
    (Chat parse doReq jitter apiKey).attempts = RetryMax ∧ RetryMax = 5 ∧
      (Chat parse doReq jitter apiKey).result = .error (classify parse (doReq 5)).errOf := by
  rw [Chat, if_neg hkey, chatLoop_all_retryable parse doReq jitter hretry]
  exact ⟨rfl, rfl, rfl⟩

/-- Witness for C4: a transport failure on every attempt yields exactly 5
attempts and the transport error as the result. -/
theorem chat_exhausts_retries_witness :
    (Chat (fun _ => none) (fun _ => .transportErr "dial failed") (fun _ => 0) "key").attempts =
        RetryMax ∧ RetryMax = 5 ∧
      (Chat (fun _ => none) (fun _ => .transportErr "dial failed") (fun _ => 0) "key").result =
        .error (classify (fun _ => none) ((fun _ => .transportErr "dial failed") 5)).errOf :=
  chat_exhausts_retries (fun _ => none) (fun _ => .transportErr "dial failed") (fun _ => 0) "key"
    (by decide) (fun _ => rfl)

/-- C5: a fatal outcome on the first attempt (non-retryable status, or a
200 response with a malformed body or no content) makes Chat return that
failure after exactly 1 attempt, with no backoff sleep. -/
theorem chat_fatal_short_circuit (parse : String → Option (List String))
    (doReq : Nat → HttpResult) (jitter : Nat → Nat) (apiKey : String) (e : ChatError)
    (hkey : apiKey ≠ "")
    (hfatal : classify parse (doReq 1) = .fatal e) :
    Chat parse doReq jitter apiKey = ⟨.error (some e), 1, []⟩ := by
  rw [Chat, if_neg hkey]
  have hrange : (List.range RetryMax).map (fun i => i + 1) = [1, 2, 3, 4, 5] := rfl
  rw [hrange]
  simp [chatLoop, hfatal]

/-- Witness for C5: a 200 response whose parsed body has no content
entries is fatal on attempt 1 — one attempt, no sleeps. -/
theorem chat_fatal_short_circuit_witness :
    Chat (fun _ => some []) (fun _ => .response 200 "{}") (fun _ => 0) "key" =
      ⟨.error (some .noContent), 1, []⟩ :=
  chat_fatal_short_circuit (fun _ => some []) (fun _ => .response 200 "{}") (fun _ => 0) "key"
    .noContent (by decide) rfl

/-- C6: in a run where every attempt ends in a retryable failure, the
sleep recorded after attempt n equals
min(BackoffMax, BackoffMin * 2^(n-1)) plus the jitter draw converted to
nanoseconds, with BackoffMin = 1500ms, BackoffMax = 6s; and since
rand.Intn(700) always draws below 700, each jitter contribution is below
700ms. -/
theorem chat_backoff_schedule (parse : String → Option (List String))
    (doReq : Nat → HttpResult) (jitter : Nat → Nat) (apiKey : String)
    (hkey : apiKey ≠ "")
    (hretry : ∀ n, (classify parse (doReq n)).isRetryable = true)
    (hjit : ∀ n, jitter n < 700) :
    (Chat parse doReq jitter apiKey).sleeps =
        [min BackoffMax (BackoffMin * 2 ^ 0) + jitter 1 * 1000000,
          min BackoffMax (BackoffMin * 2 ^ 1) + jitter 2 * 1000000,
          min BackoffMax (BackoffMin * 2 ^ 2) + jitter 3 * 1000000,
          min BackoffMax (BackoffMin * 2 ^ 3) + jitter 4 * 1000000,
          min BackoffMax (BackoffMin * 2 ^ 4) + jitter 5 * 1000000] ∧
      BackoffMin = 1500000000 ∧ BackoffMax = 6000000000 ∧
      ∀ n, jitter n * 1000000 < 700000000 := by
  rw [Chat, if_neg hkey, chatLoop_all_retryable parse doReq jitter hretry]
  refine ⟨rfl, rfl, rfl, fun n => ?_⟩
  have := hjit n
  omega

/-- Witness for C6: with a constant jitter draw of 123 ms the recorded
sleeps follow the capped exponential schedule. -/
theorem chat_backoff_schedule_witness :
    (Chat (fun _ => none) (fun _ => .response 503 "overloaded") (fun _ => 123) "key").sleeps =
        [min BackoffMax (BackoffMin * 2 ^ 0) + 123 * 1000000,
          min BackoffMax (BackoffMin * 2 ^ 1) + 123 * 1000000,
          min BackoffMax (BackoffMin * 2 ^ 2) + 123 * 1000000,
          min BackoffMax (BackoffMin * 2 ^ 3) + 123 * 1000000,
          min BackoffMax (BackoffMin * 2 ^ 4) + 123 * 1000000] ∧
      BackoffMin = 1500000000 ∧ BackoffMax = 6000000000 ∧
      ∀ n : Nat, (fun _ : Nat => 123) n * 1000000 < 700000000 :=
  chat_backoff_schedule (fun _ => none) (fun _ => .response 503 "overloaded")
    (fun _ : Nat => 123) "key" (by decide) (fun _ => rfl) (by intro n; norm_num)

/-! Durable-storage model for StoreCredentials and StoreToken. The file
system is an association list from paths to byte contents, read through
its first matching entry. A store operation emits a list of file-system
operations; os.WriteFile(path, data, 0600) opens with
O_WRONLY|O_CREATE|O_TRUNC and then writes, so its observable micro-steps
are a truncation of the path followed by the write of the full content. -/

/-- File-system operation emitted by a store operation. -/
inductive FsOp where
  | writeFile (path : String) (content : List Nat) (perm : Nat)
deriving DecidableEq

/-- Micro-steps observable while a file-system operation runs. -/
inductive MicroOp where
  | truncate (path : String)
  | writeAll (path : String) (content : List Nat)
deriving DecidableEq

/-- Micro-step expansion of os.WriteFile: O_TRUNC empties the existing
file in place, then the content is written. No temporary file and no
rename are involved. -/
def microOf : FsOp → List MicroOp
  | .writeFile p d _ => [.truncate p, .writeAll p d]

/-- File-system state: association list of path and content. -/
def FS := List (String × List Nat)

/-- Content of a path: first matching entry, none when absent. -/
def FS.get : FS → String → Option (List Nat)
  | [], _ => none
  | (q, d) :: rest, p => if p = q then some d else FS.get rest p

/-- Setting a path shadows any previous entry for it. -/
def FS.set (fs : FS) (p : String) (d : List Nat) : FS := (p, d) :: fs

/-- Effect of one micro-step on the file system. -/
def MicroOp.run (fs : FS) : MicroOp → FS
  | .truncate p => fs.set p []
  | .writeAll p d => fs.set p d

/-- Final file system after a sequence of micro-steps. -/
def runMicro (fs : FS) : List MicroOp → FS
  | [] => fs
  | op :: rest => runMicro (op.run fs) rest

/-- All file-system states observable during a sequence of micro-steps,
from the initial state to the final one. -/
def statesMicro (fs : FS) : List MicroOp → List FS
  | [] => [fs]
  | op :: rest => fs :: statesMicro (op.run fs) rest

/-- Modelled from the spec: "replacing any prior content atomically from
the caller's point of view (the prior file's content must never be
observably partially overwritten — write a new file then rename over the
old one, or equivalent)". A replacement of record p is atomic when every
observable state shows either the prior content or the final content of
p. This is the spec-side definition, to be compared with the source-side
write sequence. -/
def atomicForCaller (fs : FS) (ops : List MicroOp) (p : String) : Bool :=
  (statesMicro fs ops).all fun fs2 =>
    fs2.get p == fs.get p || fs2.get p == (runMicro fs ops).get p

/-- Error outcome of StoreCredentials. -/
inductive StoreErr where
  /-- json.Unmarshal of the credentials bytes failed:
  "invalid credentials JSON". -/
  | invalidCredentialsJson
deriving DecidableEq

/-- Path of the credentials record: filepath.Join(baseDir,
"credentials.enc"). -/
def credPath (s : Store) : String := s.baseDir ++ "/credentials.enc"

/-- Path of the token record: filepath.Join(baseDir, "token.enc"). -/
def tokenPath (s : Store) : String := s.baseDir ++ "/token.enc"

/-- StoreCredentials: validate that the bytes unmarshal as a JSON object
(jsonObjOk models json.Unmarshal into map[string]interface&#123;&#125;),
then encrypt, then write the envelope to credentials.enc with mode 0600.
Returns the error before any encryption or write when validation fails.
The salt and nonce are the random draws of the inner encrypt call. -/
def Store.storeCredentials (prim : CryptoPrim) (jsonObjOk : List Nat → Bool) (s : Store)
    (credentials salt nonce : List Nat) : Except StoreErr Unit × List FsOp :=
  if jsonObjOk credentials then
    (.ok (), [.writeFile (credPath s) (Store.encrypt prim s salt nonce credentials) 0o600])
  else (.error .invalidCredentialsJson, [])

/-- Token record: access/refresh token pair with expiry. expiry is in
seconds; none models the Go zero time.Time. -/
structure Token where
  accessToken : String
  refreshToken : String
  tokenType : String
  expiry : Option Int
deriving DecidableEq

/-- StoreToken: marshal the token (json.Marshal, which cannot fail on
this struct; marshal models it), encrypt, and write the envelope to
token.enc with mode 0600. -/
def Store.storeToken (prim : CryptoPrim) (marshal : Token → List Nat) (s : Store)
    (tok : Token) (salt nonce : List Nat) : Except StoreErr Unit × List FsOp :=
  (.ok (), [.writeFile (tokenPath s) (Store.encrypt prim s salt nonce (marshal tok)) 0o600])

/-- Reading a path just written yields the new content; other paths are
unchanged. -/
theorem FS.get_set (fs : FS) (p q : String) (d : List Nat) :
    (fs.set p d).get q = if q = p then some d else fs.get q := rfl

/-- C7 counterexample: a concrete run of StoreCredentials over a file
system already holding a credentials record passes through an observable
state whose record content is empty — neither the prior nor the new
envelope — because os.WriteFile truncates the file in place before
writing. The claimed write-new-file-then-rename behavior would never show
such a state, so the store is not atomic from the caller's point of view. -/
theorem storeCredentials_not_atomic :
    atomicForCaller [(credPath ⟨"base", "pw"⟩, [9, 9])]
      ((Store.storeCredentials toyPrim (fun _ => true) ⟨"base", "pw"⟩ [1]
          (List.replicate 16 0) (List.replicate 12 0)).2.flatMap microOf)
      (credPath ⟨"base", "pw"⟩) = false := by decide

/-- C7 amended: every store of a named secret overwrites the record
wholesale — after the operation completes the record holds exactly the
new envelope and no other path changed — but the replacement is not
atomic: it is a single in-place os.WriteFile (truncate then write), not a
write-new-file-then-rename. This theorem proves the wholesale-replacement
and frame part for both StoreCredentials and StoreToken. -/
theorem store_records_wholesale (prim : CryptoPrim) (jsonObjOk : List Nat → Bool)
    (marshal : Token → List Nat) (s : Store) (credentials salt nonce : List Nat)
    (tok : Token) (fs : FS)
    (hjson : jsonObjOk credentials = true) :
    (∀ q, (runMicro fs ((Store.storeCredentials prim jsonObjOk s credentials salt nonce).2.flatMap
          microOf)).get q =
        if q = credPath s then some (Store.encrypt prim s salt nonce credentials)
        else fs.get q) ∧
      (∀ q, (runMicro fs ((Store.storeToken prim marshal s tok salt nonce).2.flatMap
          microOf)).get q =
        if q = tokenPath s then some (Store.encrypt prim s salt nonce (marshal tok))
        else fs.get q) := by
  constructor
  · intro q
    simp only [Store.storeCredentials, hjson, if_pos, List.flatMap, microOf]
    show (((fs.set (credPath s) []).set (credPath s) _).get q) = _
    rw [FS.get_set, FS.get_set]
    by_cases h : q = credPath s <;> simp [h]
  · intro q
    simp only [Store.storeToken, List.flatMap, microOf]
    show (((fs.set (tokenPath s) []).set (tokenPath s) _).get q) = _
    rw [FS.get_set, FS.get_set]
    by_cases h : q = tokenPath s <;> simp [h]

/-- Witness for the amended C7 theorem at a concrete store, file system,
credentials blob and token. -/
theorem store_records_wholesale_witness :
    (∀ q, (runMicro [(credPath ⟨"base", "pw"⟩, [9, 9])]
          ((Store.storeCredentials toyPrim (fun _ => true) ⟨"base", "pw"⟩ [1]
              (List.replicate 16 0) (List.replicate 12 0)).2.flatMap microOf)).get q =
        if q = credPath ⟨"base", "pw"⟩ then
          some (Store.encrypt toyPrim ⟨"base", "pw"⟩ (List.replicate 16 0)
            (List.replicate 12 0) [1])
        else FS.get [(credPath ⟨"base", "pw"⟩, [9, 9])] q) ∧
      (∀ q, (runMicro [(credPath ⟨"base", "pw"⟩, [9, 9])]
          ((Store.storeToken toyPrim (fun _ => [7]) ⟨"base", "pw"⟩ ⟨"a", "r", "Bearer", none⟩
              (List.replicate 16 0) (List.replicate 12 0)).2.flatMap microOf)).get q =
        if q = tokenPath ⟨"base", "pw"⟩ then
          some (Store.encrypt toyPrim ⟨"base", "pw"⟩ (List.replicate 16 0)
            (List.replicate 12 0) [7])
        else FS.get [(credPath ⟨"base", "pw"⟩, [9, 9])] q) :=
  store_records_wholesale toyPrim (fun _ => true) (fun _ => [7]) ⟨"base", "pw"⟩ [1]
    (List.replicate 16 0) (List.replicate 12 0) ⟨"a", "r", "Bearer", none⟩
    [(credPath ⟨"base", "pw"⟩, [9, 9])] rfl

/-- C8: when the credentials bytes fail JSON validation, StoreCredentials
returns the validation error, emits no file-system operation — so for
every initial file system every record, in particular the stored
credentials record, is unchanged — and never reaches the encrypt call,
which in the definition occurs only inside the accepted branch. -/
theorem storeCredentials_rejects_invalid (prim : CryptoPrim) (jsonObjOk : List Nat → Bool)
    (s : Store) (credentials salt nonce : List Nat)
    (hbad : jsonObjOk credentials = false) :
    Store.storeCredentials prim jsonObjOk s credentials salt nonce =
        (.error .invalidCredentialsJson, []) ∧
      ∀ fs : FS, ∀ q,
        (runMicro fs ((Store.storeCredentials prim jsonObjOk s credentials salt nonce).2.flatMap
          microOf)).get q = fs.get q := by
  have h : Store.storeCredentials prim jsonObjOk s credentials salt nonce =
      (.error .invalidCredentialsJson, []) := by
    simp [Store.storeCredentials, hbad]
  exact ⟨h, fun fs q => by rw [h]; rfl⟩

/-- Witness for C8: a blob rejected by the JSON parser leaves a concrete
file system untouched and yields the validation error. -/
theorem storeCredentials_rejects_invalid_witness :
    Store.storeCredentials toyPrim (fun _ => false) ⟨"base", "pw"⟩ [1, 2]
        (List.replicate 16 0) (List.replicate 12 0) =
        (.error .invalidCredentialsJson, []) ∧
      ∀ fs : FS, ∀ q,
        (runMicro fs ((Store.storeCredentials toyPrim (fun _ => false) ⟨"base", "pw"⟩ [1, 2]
          (List.replicate 16 0) (List.replicate 12 0)).2.flatMap microOf)).get q = fs.get q :=
  storeCredentials_rejects_invalid toyPrim (fun _ => false) ⟨"base", "pw"⟩ [1, 2]
    (List.replicate 16 0) (List.replicate 12 0) rfl

/-! Token lifecycle: GetOAuthClient. The token validity check in the Go
source is tok.Valid() from golang.org/x/oauth2, which is library code:
Token.Valid() = t != nil && t.AccessToken != "" && !t.expired(), where
expired() returns false for a zero Expiry and otherwise compares
Expiry.Round(0).Add(-expiryDelta).Before(timeNow()) with
defaultExpiryDelta = 10 * time.Second. That 10-second early-expiry delta
is transcribed here. Instants are Int seconds. -/

/-- defaultExpiryDelta of golang.org/x/oauth2 token.go: 10 seconds. -/
def expiryDelta : Int := 10

/-- Token.expired of golang.org/x/oauth2: false when the expiry is the
zero time, otherwise expiry - expiryDelta strictly before now. -/
def Token.expired (t : Token) (now : Int) : Bool :=
  match t.expiry with
  | none => false
  | some e => decide (e - expiryDelta < now)

/-- Token.Valid of golang.org/x/oauth2: non-nil (always, here), non-empty
access token and not expired. -/
def Token.valid (t : Token) (now : Int) : Bool :=
  !(t.accessToken == "") && !(t.expired now)

/-- Failure reasons of the load operations (os.ReadFile, Store.decrypt,
json.Unmarshal), one per wrap site in LoadCredentials/LoadToken. -/
inductive LoadErr where
  | readFailed
  | decryptFailed
  | unmarshalFailed
deriving DecidableEq

/-- Externally visible steps GetOAuthClient performs, in order: running
the interactive web flow (getTokenFromWeb), calling the refresh token
source (config.TokenSource(ctx, tok).Token()), and a successful
StoreToken of a new token. -/
inductive GEvent where
  | webFlow
  | refreshCall
  | storeTok (t : Token)
deriving DecidableEq

/-- Error returned by GetOAuthClient, one per return site in the Go
source. -/
inductive GErr where
  /-- "load credentials: %w". -/
  | loadCredentials (e : LoadErr)
  /-- "parse credentials: %w" (google.ConfigFromJSON failed). -/
  | parseCredentials
  /-- getTokenFromWeb failed (its error is returned unwrapped). -/
  | webFlowFailed (msg : String)
  /-- "store new token: %w". -/
  | storeNewToken (msg : String)
  /-- "refresh token: %w". -/
  | refreshFailed (msg : String)
  /-- "store refreshed token: %w". -/
  | storeRefreshedToken (msg : String)
deriving DecidableEq

/-- Collaborator outcomes consumed by one GetOAuthClient call: the result
of LoadCredentials, whether google.ConfigFromJSON accepts the credential
bytes, the result of LoadToken, the outcome of the interactive web flow,
the outcome of the refresh token source, the outcome of StoreToken per
token (none = success, some msg = error), and the current wall-clock
time. -/
structure OAuthEnv where
  loadCredsRes : Except LoadErr (List Nat)
  parseConfigOk : List Nat → Bool
  loadTokenRes : Except LoadErr Token
  webTokenRes : Except String Token
  refreshRes : Except String Token
  storeTokenRes : Token → Option String
  now : Int

/-- Validity check and refresh phase of GetOAuthClient: if !tok.Valid(),
obtain a new token from the token source, store it (returning the store
error on failure), and use it; otherwise keep tok. The returned token is
the one the final config.Client(ctx, tok) is built with. -/
def refreshPhase (env : OAuthEnv) (t : Token) (evs : List GEvent) :
    Except GErr Token × List GEvent :=
  if t.valid env.now then (.ok t, evs)
  else
    match env.refreshRes with
    | .error m => (.error (.refreshFailed m), evs ++ [.refreshCall])
    | .ok t2 =>
      match env.storeTokenRes t2 with
      | some m => (.error (.storeRefreshedToken m), evs ++ [.refreshCall])
      | none => (.ok t2, evs ++ [.refreshCall, .storeTok t2])

/-- GetOAuthClient, following the Go source: load credentials
(propagating failure), parse them (propagating failure), try LoadToken —
on ANY LoadToken error run the interactive web flow and store the new
token (propagating web-flow and store failures) — then run the validity
check and refresh phase on the token in hand. -/
def getOAuthClient (env : OAuthEnv) : Except GErr Token × List GEvent :=
  match env.loadCredsRes with
  | .error e => (.error (.loadCredentials e), [])
  | .ok credData =>
    if env.parseConfigOk credData then
      match env.loadTokenRes with
      | .error _ =>
        match env.webTokenRes with
        | .error m => (.error (.webFlowFailed m), [.webFlow])
        | .ok t =>
          match env.storeTokenRes t with
          | some m => (.error (.storeNewToken m), [.webFlow])
          | none => refreshPhase env t [.webFlow, .storeTok t]
      | .ok t => refreshPhase env t []
    else (.error .parseCredentials, [])

/-- C3 counterexample: a stored token whose expiry is one second in the
future (expiry = 1, now = 0, non-empty access token) is classified
invalid — oauth2.Token.Valid applies its 10-second early-expiry delta —
so GetOAuthClient does perform the refresh call, where the claim says it
is classified valid with no refresh. -/
theorem token_one_second_future_refreshes :
    Token.valid ⟨"acc", "ref", "Bearer", some 1⟩ 0 = false ∧
      (getOAuthClient
          { loadCredsRes := .ok [1]
            parseConfigOk := fun _ => true
            loadTokenRes := .ok ⟨"acc", "ref", "Bearer", some 1⟩
            webTokenRes := .error "unused"
            refreshRes := .ok ⟨"acc2", "ref", "Bearer", some 4000⟩
            storeTokenRes := fun _ => none
            now := 0 }).2 =
        [.refreshCall, .storeTok ⟨"acc2", "ref", "Bearer", some 4000⟩] := by
  constructor
  · rfl
  · rfl

/-- C3 amended: for a stored token with a non-empty access token and a
concrete expiry, GetOAuthClient refreshes whenever the expiry is at or
before now (that half of the claim holds), and skips the refresh exactly
when the expiry is at least 10 seconds in the future — the subsystem adds
no grace itself, but the oauth2 library's Token.Valid applies a 10-second
early-expiry delta, so an expiry only one second ahead still triggers a
refresh. -/
theorem token_expiry_boundary (env : OAuthEnv) (t : Token) (credData : List Nat) (e : Int)
    (hcred : env.loadCredsRes = .ok credData)
    (hparse : env.parseConfigOk credData = true)
    (htok : env.loadTokenRes = .ok t)
    (hacc : t.accessToken ≠ "")
    (hexp : t.expiry = some e) :
    (e ≤ env.now → GEvent.refreshCall ∈ (getOAuthClient env).2) ∧
      (env.now + expiryDelta ≤ e →
        getOAuthClient env = (.ok t, [])) := by
  have hne : (t.accessToken == "") = false := beq_eq_false_iff_ne.mpr hacc
  have hvalid : t.valid env.now = decide (env.now + expiryDelta ≤ e) := by
    simp only [Token.valid, Token.expired, hexp, hne, Bool.not_false, Bool.true_and,
      ← decide_not]
    rw [decide_eq_decide]
    omega
  constructor
  · intro hle
    have hv : t.valid env.now = false := by
      rw [hvalid, decide_eq_false]
      rw [expiryDelta] at *
      omega
    simp only [getOAuthClient, hcred, hparse, if_true, htok]
    rw [refreshPhase, if_neg (by rw [hv]; exact Bool.false_ne_true)]
    cases env.refreshRes with
    | error m => simp
    | ok t2 =>
      cases hst : env.storeTokenRes t2 with
      | none => simp [hst]
      | some m => simp [hst]
  · intro hge
    have hv : t.valid env.now = true := by rw [hvalid]; exact decide_eq_true hge
    simp only [getOAuthClient, hcred, hparse, if_true, htok]
    rw [refreshPhase, if_pos (by rw [hv])]

/-- Witness for the amended C3 theorem: a token expiring 60 seconds after
now is returned untouched with no refresh call, and its sibling
hypothesis side (expiry at or before now) holds vacuously here. -/
theorem token_expiry_boundary_witness :
    ((60 : Int) ≤ 0 → GEvent.refreshCall ∈
        (getOAuthClient
          { loadCredsRes := .ok [1]
            parseConfigOk := fun _ => true
            loadTokenRes := .ok ⟨"acc", "ref", "Bearer", some 60⟩
            webTokenRes := .error "unused"
            refreshRes := .error "unused"
            storeTokenRes := fun _ => none
            now := 0 }).2) ∧
      ((0 : Int) + expiryDelta ≤ 60 →
        getOAuthClient
          { loadCredsRes := .ok [1]
            parseConfigOk := fun _ => true
            loadTokenRes := .ok ⟨"acc", "ref", "Bearer", some 60⟩
            webTokenRes := .error "unused"
            refreshRes := .error "unused"
            storeTokenRes := fun _ => none
            now := 0 } = (.ok ⟨"acc", "ref", "Bearer", some 60⟩, [])) :=
  token_expiry_boundary
    { loadCredsRes := .ok [1]
      parseConfigOk := fun _ => true
      loadTokenRes := .ok ⟨"acc", "ref", "Bearer", some 60⟩
      webTokenRes := .error "unused"
      refreshRes := .error "unused"
      storeTokenRes := fun _ => none
      now := 0 }
    ⟨"acc", "ref", "Bearer", some 60⟩ [1] 60 rfl rfl rfl (by decide) rfl

/-- C9 counterexample: LoadToken fails with a decryption failure of the
existing token record, yet GetOAuthClient returns success — the error is
swallowed, GetOAuthClient itself runs the interactive web flow (the
webFlow event) instead of propagating the failure to the caller, who per
the claim should have decided whether to fall back to re-authorization. -/
theorem token_load_error_swallowed :
    (getOAuthClient
        { loadCredsRes := .ok [1]
          parseConfigOk := fun _ => true
          loadTokenRes := .error .decryptFailed
          webTokenRes := .ok ⟨"acc", "ref", "Bearer", some 4000⟩
          refreshRes := .error "unused"
          storeTokenRes := fun _ => none
          now := 0 }).1 =
      .ok ⟨"acc", "ref", "Bearer", some 4000⟩ ∧
    (getOAuthClient
        { loadCredsRes := .ok [1]
          parseConfigOk := fun _ => true
          loadTokenRes := .error .decryptFailed
          webTokenRes := .ok ⟨"acc", "ref", "Bearer", some 4000⟩
          refreshRes := .error "unused"
          storeTokenRes := fun _ => none
          now := 0 }).2 =
      [.webFlow, .storeTok ⟨"acc", "ref", "Bearer", some 4000⟩] :=
  ⟨rfl, rfl⟩

/-- The refresh phase reads only the clock, the refresh outcome and the
StoreToken outcome of its environment. -/
theorem refreshPhase_congr (env1 env2 : OAuthEnv) (t : Token) (evs : List GEvent)
    (hnow : env1.now = env2.now) (hr : env1.refreshRes = env2.refreshRes)
    (hs : env1.storeTokenRes = env2.storeTokenRes) :
    refreshPhase env1 t evs = refreshPhase env2 t evs := by
  rw [refreshPhase, refreshPhase, hnow, hr, hs]

/-- C9 amended: errors loading the stored credentials do propagate to the
caller, but every error from LoadToken — including a decryption failure
of an existing record — is swallowed by GetOAuthClient, which falls back
to the interactive authorization flow itself: the run performs the web
flow, and which load error occurred has no influence on the outcome. -/
theorem load_errors_propagation (env : OAuthEnv) (credData : List Nat) (e : LoadErr)
    (hcred : env.loadCredsRes = .ok credData)
    (hparse : env.parseConfigOk credData = true)
    (htok : env.loadTokenRes = .error e) :
    GEvent.webFlow ∈ (getOAuthClient env).2 ∧
      (∀ e2 : LoadErr,
        getOAuthClient { env with loadTokenRes := .error e2 } = getOAuthClient env) ∧
      (∀ env2 : OAuthEnv, ∀ e3 : LoadErr, env2.loadCredsRes = .error e3 →
        getOAuthClient env2 = (.error (.loadCredentials e3), [])) := by
  refine ⟨?_, ?_, ?_⟩
  · simp only [getOAuthClient, hcred, hparse, if_true, htok]
    cases env.webTokenRes with
    | error m => simp
    | ok t =>
      cases hst : env.storeTokenRes t with
      | some m => simp [hst]
      | none =>
        simp only [hst, refreshPhase]
        by_cases hv : t.valid env.now = true
        · rw [if_pos hv]
          simp
        · rw [if_neg hv]
          cases env.refreshRes with
          | error m => simp
          | ok t2 =>
            cases hst2 : env.storeTokenRes t2 with
            | some m => simp [hst2]
            | none => simp [hst2]
  · intro e2
    simp only [getOAuthClient, hcred, hparse, if_true, htok]
    cases hweb : env.webTokenRes with
    | error m => rfl
    | ok tw =>
      cases hst : env.storeTokenRes tw with
      | some m => simp [hst]
      | none =>
        simp only [hst]
        exact refreshPhase_congr _ _ _ _ rfl rfl rfl
  · intro env2 e3 h3
    simp only [getOAuthClient, h3]

/-- Witness for the amended C9 theorem at a concrete environment whose
token record fails to decrypt. -/
theorem load_errors_propagation_witness :
    GEvent.webFlow ∈
      (getOAuthClient
          { loadCredsRes := .ok [2]
            parseConfigOk := fun _ => true
            loadTokenRes := .error .decryptFailed
            webTokenRes := .error "user aborted"
            refreshRes := .error "unused"
            storeTokenRes := fun _ => none
            now := 0 }).2 ∧
      (∀ e2 : LoadErr,
        getOAuthClient
            { loadCredsRes := .ok [2]
              parseConfigOk := fun _ => true
              loadTokenRes := .error e2
              webTokenRes := .error "user aborted"
              refreshRes := .error "unused"
              storeTokenRes := fun _ => none
              now := 0 } =
          getOAuthClient
            { loadCredsRes := .ok [2]
              parseConfigOk := fun _ => true
              loadTokenRes := .error .decryptFailed
              webTokenRes := .error "user aborted"
              refreshRes := .error "unused"
              storeTokenRes := fun _ => none
              now := 0 }) ∧
      (∀ env2 : OAuthEnv, ∀ e3 : LoadErr, env2.loadCredsRes = .error e3 →
        getOAuthClient env2 = (.error (.loadCredentials e3), [])) :=
  load_errors_propagation
    { loadCredsRes := .ok [2]
      parseConfigOk := fun _ => true
      loadTokenRes := .error .decryptFailed
      webTokenRes := .error "user aborted"
      refreshRes := .error "unused"
      storeTokenRes := fun _ => none
      now := 0 } [2] .decryptFailed rfl rfl rfl

/-- C10: whenever GetOAuthClient returns successfully with token t, either
t is exactly the stored token that was loaded and found valid (no new
token was obtained), or t was newly obtained (web flow or refresh) and
was persisted through StoreToken before returning — the storeTok t event
occurred and the StoreToken call succeeded. A failing StoreToken makes
GetOAuthClient return an error instead, so it can never appear before a
successful return. -/
theorem new_token_persisted_before_return (env : OAuthEnv) (t : Token)
    (hok : (getOAuthClient env).1 = .ok t) :
    (env.loadTokenRes = .ok t ∧ t.valid env.now = true ∧ (getOAuthClient env).2 = []) ∨
      (GEvent.storeTok t ∈ (getOAuthClient env).2 ∧ env.storeTokenRes t = none) := by
  have hphase : ∀ t0 evs, (refreshPhase env t0 evs).1 = .ok t →
      (t0 = t ∧ t.valid env.now = true ∧ (refreshPhase env t0 evs).2 = evs) ∨
        (GEvent.storeTok t ∈ (refreshPhase env t0 evs).2 ∧ env.storeTokenRes t = none) := by
    intro t0 evs hp
    by_cases hv : t0.valid env.now = true
    · rw [refreshPhase, if_pos hv] at hp
      have ht : t0 = t := by simpa using hp
      subst ht
      exact .inl ⟨rfl, hv, by rw [refreshPhase, if_pos hv]⟩
    · cases hr : env.refreshRes with
      | error m =>
        rw [refreshPhase, if_neg hv, hr] at hp
        simp at hp
      | ok t2 =>
        cases hst : env.storeTokenRes t2 with
        | some m =>
          rw [refreshPhase, if_neg hv, hr] at hp
          simp [hst] at hp
        | none =>
          rw [refreshPhase, if_neg hv, hr] at hp
          have ht : t2 = t := by simpa [hst] using hp
          subst ht
          refine .inr ⟨?_, hst⟩
          rw [refreshPhase, if_neg hv, hr]
          simp [hst]
  cases hcred : env.loadCredsRes with
  | error e => rw [getOAuthClient, hcred] at hok; simp at hok
  | ok credData =>
    by_cases hparse : env.parseConfigOk credData = true
    · cases htok : env.loadTokenRes with
      | ok t0 =>
        have hred : getOAuthClient env = refreshPhase env t0 [] := by
          simp only [getOAuthClient, hcred, hparse, if_true, htok]
        rw [hred] at hok ⊢
        rcases hphase t0 [] hok with ⟨hteq, hv, hev⟩ | hr
        · exact .inl ⟨by rw [hteq], hv, hev⟩
        · exact .inr hr
      | error e =>
        cases hweb : env.webTokenRes with
        | error m =>
          rw [getOAuthClient, hcred] at hok
          simp [hparse, htok, hweb] at hok
        | ok tw =>
          cases hst : env.storeTokenRes tw with
          | some m =>
            rw [getOAuthClient, hcred] at hok
            simp [hparse, htok, hweb, hst] at hok
          | none =>
            have hred : getOAuthClient env =
                refreshPhase env tw [.webFlow, .storeTok tw] := by
              simp only [getOAuthClient, hcred, hparse, if_true, htok, hweb, hst]
            rw [hred] at hok ⊢
            rcases hphase tw [.webFlow, .storeTok tw] hok with ⟨hteq, hv, hev⟩ | hr
            · refine .inr ⟨?_, by rw [← hteq]; exact hst⟩
              rw [hev, ← hteq]
              simp
            · exact .inr hr
    · rw [getOAuthClient, hcred] at hok
      simp [hparse] at hok

/-- Witness for C10: a concrete environment whose stored token is valid;
the successful result is covered by the first disjunct. -/
theorem new_token_persisted_before_return_witness :
    ((OAuthEnv.mk (.ok [1]) (fun _ => true) (.ok ⟨"acc", "ref", "Bearer", some 60⟩)
          (.error "unused") (.error "unused") (fun _ => none) 0).loadTokenRes =
        .ok ⟨"acc", "ref", "Bearer", some 60⟩ ∧
      Token.valid ⟨"acc", "ref", "Bearer", some 60⟩
          (OAuthEnv.mk (.ok [1]) (fun _ => true) (.ok ⟨"acc", "ref", "Bearer", some 60⟩)
            (.error "unused") (.error "unused") (fun _ => none) 0).now = true ∧
      (getOAuthClient
          (OAuthEnv.mk (.ok [1]) (fun _ => true) (.ok ⟨"acc", "ref", "Bearer", some 60⟩)
            (.error "unused") (.error "unused") (fun _ => none) 0)).2 = []) ∨
    (GEvent.storeTok ⟨"acc", "ref", "Bearer", some 60⟩ ∈
        (getOAuthClient
          (OAuthEnv.mk (.ok [1]) (fun _ => true) (.ok ⟨"acc", "ref", "Bearer", some 60⟩)
            (.error "unused") (.error "unused") (fun _ => none) 0)).2 ∧
      (OAuthEnv.mk (.ok [1]) (fun _ => true) (.ok ⟨"acc", "ref", "Bearer", some 60⟩)
          (.error "unused") (.error "unused") (fun _ => none) 0).storeTokenRes
          ⟨"acc", "ref", "Bearer", some 60⟩ = none) :=
  new_token_persisted_before_return
    (OAuthEnv.mk (.ok [1]) (fun _ => true) (.ok ⟨"acc", "ref", "Bearer", some 60⟩)
      (.error "unused") (.error "unused") (fun _ => none) 0)
    ⟨"acc", "ref", "Bearer", some 60⟩ rfl

end NewsletterDigest
